import Mathlib

/-!
Verification of the native-shell command layer of FatturaAnalyzer-v2
(src-tauri/src/main.rs): a shallow embedding of the six Tauri commands,
the backend health probe, and the window-lifecycle controller, with the
network, the OS shell opener and the host event loop supplied as explicit
oracles / modelled environments.
-/

namespace FatturaAnalyzer

/-- Success discriminator on a command result (the Rust Result is embedded as
Except String). -/
def isSuccess {α : Type} : Except String α → Bool
  | Except.ok _ => true
  | Except.error _ => false

/-- Error discriminator on a command result. -/
def isError {α : Type} : Except String α → Bool
  | Except.ok _ => false
  | Except.error _ => true

/-- A command result is exactly one of success or error: never both, never
neither. -/
def exactlyOne {α : Type} (r : Except String α) : Prop :=
  (isSuccess r = true ∧ isError r = false) ∨
  (isSuccess r = false ∧ isError r = true)

/-- The string n occurs as a contiguous substring of hay. -/
def containsStr (hay n : String) : Prop :=
  ∃ p s, hay = p ++ n ++ s

/-- Compile-time and platform constants read by the commands: CARGO_PKG_VERSION,
tauri::version(), the std::env::consts values, and cfg!(debug_assertions).
All are immutable for the lifetime of one process. -/
structure ProcessConsts where
  cargoPkgVersion : String
  tauriVersion : String
  os : String
  arch : String
  family : String
  exeSuffix : String
  dllPrefixVal : String
  dllSuffixVal : String
  debugAssertions : Bool
deriving DecidableEq, Repr

/-- Observable process state threaded through a command invocation: the
process constants plus the lines printed to stdout (println! side effects). -/
structure ProcState where
  consts : ProcessConsts
  stdoutLog : List String
deriving DecidableEq, Repr

/-- Embedding of the app_ready command (main.rs): prints a readiness line and
returns a fixed confirmation string. -/
def app_ready (s : ProcState) : Except String String × ProcState :=
  (Except.ok "App initialized successfully",
   { s with stdoutLog := s.stdoutLog ++ ["📱 Tauri app is ready!"] })

/-- The App Info Record returned by get_app_info (the serde_json object with
keys name, version, tauri_version, platform, arch, debug). -/
structure AppInfo where
  name : String
  version : String
  tauri_version : String
  platform : String
  arch : String
  debug : Bool
deriving DecidableEq, Repr

/-- Embedding of the get_app_info command (main.rs): builds the record from
process constants and always succeeds; no side effect. -/
def get_app_info (s : ProcState) : Except String AppInfo × ProcState :=
  (Except.ok
    { name := "FatturaAnalyzer v2",
      version := s.consts.cargoPkgVersion,
      tauri_version := s.consts.tauriVersion,
      platform := s.consts.os,
      arch := s.consts.arch,
      debug := s.consts.debugAssertions }, s)

/-- The System Info Record returned by get_system_info (the serde_json object
with keys os, arch, family, exe_suffix, dll_prefix, dll_suffix; the last two
are the fields dllPrefixVal / dllSuffixVal here). -/
structure SystemInfo where
  os : String
  arch : String
  family : String
  exe_suffix : String
  dllPrefixVal : String
  dllSuffixVal : String
deriving DecidableEq, Repr

/-- Embedding of the get_system_info command (main.rs): builds the record from
process constants and always succeeds; no side effect. -/
def get_system_info (s : ProcState) : Except String SystemInfo × ProcState :=
  (Except.ok
    { os := s.consts.os,
      arch := s.consts.arch,
      family := s.consts.family,
      exe_suffix := s.consts.exeSuffix,
      dllPrefixVal := s.consts.dllPrefixVal,
      dllSuffixVal := s.consts.dllSuffixVal }, s)

/-- Embedding of the open_external_url command (main.rs): hands the URL to the
OS shell opener (tauri::api::shell::open — external to this crate, supplied as
an oracle whose error string is the to_string of the underlying error); an
opener failure becomes an error result, otherwise unit success. -/
def open_external_url (shellOpen : String → Except String Unit)
    (url : String) : Except String Unit :=
  match shellOpen url with
  | Except.ok _ => Except.ok ()
  | Except.error e => Except.error e

/-- Embedding of the show_notification command (main.rs): a stub that only
prints the notification line and returns unit success. -/
def show_notification (title body : String) (s : ProcState) :
    Except String Unit × ProcState :=
  (Except.ok (),
   { s with stdoutLog :=
      s.stdoutLog ++ ["📢 Notification: " ++ title ++ " - " ++ body] })

/-- One outbound HTTP request as issued by the probe, together with the client
configuration it is sent under. -/
structure HttpRequest where
  method : String
  url : String
  headers : List (String × String)
  auth : Option String
  timeoutMs : Option Nat
  retries : Nat
deriving DecidableEq, Repr

/-- Configuration of reqwest::Client::new(): the default client has no request
timeout and performs no retries (modelled from the reqwest defaults, which the
code does not alter). -/
structure ClientConfig where
  timeoutMs : Option Nat
  retries : Nat
deriving DecidableEq, Repr

/-- The client built by reqwest::Client::new() in test_backend_connection. -/
def clientNew : ClientConfig := { timeoutMs := none, retries := 0 }

/-- The fixed health endpoint of the local backend. -/
def backendHealthUrl : String := "http://127.0.0.1:8000/health"

/-- The single GET request issued by every invocation of the probe. -/
def healthRequest : HttpRequest :=
  { method := "GET", url := backendHealthUrl, headers := [], auth := none,
    timeoutMs := clientNew.timeoutMs, retries := clientNew.retries }

/-- Outcome of reading the response body as text (response.text()): either the
decoded text or a read failure already rendered via to_string. -/
inductive BodyRead where
  | ok (text : String)
  | err (msg : String)
deriving DecidableEq, Repr

/-- Outcome of client.get(url).send(): either a response carrying an HTTP
status and a body-read outcome, or a transport-level failure already rendered
via to_string (connection refused, DNS failure, ...). -/
inductive SendOutcome where
  | response (status : Nat) (body : BodyRead)
  | transportErr (msg : String)
deriving DecidableEq, Repr

/-- Models http StatusCode::is_success: the status is in 200..=299. -/
def statusIsSuccess (s : Nat) : Bool :=
  200 ≤ s && s < 300

/-- Canonical reason phrases of the http crate for the status codes exercised
here (modelled from the http crate; the table is partial, unknown codes fall
back to the placeholder used by its Display implementation). -/
def canonicalReason (s : Nat) : Option String :=
  match s with
  | 200 => some "OK"
  | 404 => some "Not Found"
  | 500 => some "Internal Server Error"
  | 503 => some "Service Unavailable"
  | _ => none

/-- Models the Display of http StatusCode as used by format!: the numeric code,
a space, and the canonical reason phrase (or a fixed placeholder). -/
def statusDisplay (s : Nat) : String :=
  toString s ++ " " ++ (canonicalReason s).getD "<unknown status code>"

/-- Embedding of the test_backend_connection command (main.rs): builds a
default client, issues one GET to the fixed health endpoint (the request trace
is the first component), and interprets the send outcome: transport failure
and non-success status become prefixed error strings, a successful body read
becomes a prefixed success string, and a body-read failure is propagated as an
error via map_err and the question-mark operator. -/
def test_backend_connection (net : SendOutcome) :
    List HttpRequest × Except String String :=
  ([healthRequest],
    match net with
    | SendOutcome.response status body =>
        if statusIsSuccess status then
          match body with
          | BodyRead.ok text => Except.ok ("✅ Backend connected: " ++ text)
          | BodyRead.err e => Except.error e
        else
          Except.error ("❌ Backend returned status: " ++ statusDisplay status)
    | SendOutcome.transportErr e =>
        Except.error ("❌ Connection failed: " ++ e))

/-- Lifecycle states of the App Lifecycle Controller (spec section 4.4). -/
inductive LifeState where
  | Starting
  | Running
  | ClosingRequested
  | Terminated
deriving DecidableEq, Repr

/-- State of the window event loop: the lifecycle state plus the number of
termination attempts (explicit window close calls) made so far. -/
structure LoopState where
  life : LifeState
  terminationAttempts : Nat
deriving DecidableEq, Repr

/-- Window events as matched by the on_window_event callback. -/
inductive WindowEvent where
  | closeRequested
  | other
deriving DecidableEq, Repr

/-- Actions a window-event handler can take on the host runtime. -/
inductive HandlerAction where
  | preventClose
  | forceClose
deriving DecidableEq, Repr

/-- Embedding of the on_window_event callback (main.rs): on CloseRequested it
first suppresses the default close action (api.prevent_close()) and then
explicitly forces window closure (event.window().close()); every other event
does nothing. -/
def on_window_event : WindowEvent → List HandlerAction
  | WindowEvent.closeRequested =>
      [HandlerAction.preventClose, HandlerAction.forceClose]
  | WindowEvent.other => []

/-- Modelled from the spec: the effect of a handler action on the loop state
(the Tauri runtime that interprets these calls is not part of this crate).
prevent_close suppresses the runtime default close and changes no state of its
own; the explicit close call is a termination attempt and moves the window to
Terminated. -/
def applyAction (st : LoopState) (a : HandlerAction) : LoopState :=
  match a with
  | HandlerAction.preventClose => st
  | HandlerAction.forceClose =>
      { st with life := LifeState.Terminated,
                terminationAttempts := st.terminationAttempts + 1 }

/-- Modelled from the spec: event delivery by the host runtime. Events reach
the handler only while the window is alive (a Terminated window receives no
further events); delivering a close request moves the state to
ClosingRequested before the handler actions run. -/
def deliverEvent (st : LoopState) (e : WindowEvent) : LoopState :=
  if st.life = LifeState.Terminated then st
  else
    (on_window_event e).foldl applyAction
      (match e with
       | WindowEvent.closeRequested =>
           { st with life := LifeState.ClosingRequested }
       | WindowEvent.other => st)

/-- The event loop processes a sequence of window events in order. -/
def runEvents (st : LoopState) (es : List WindowEvent) : LoopState :=
  es.foldl deliverEvent st

theorem exactlyOne_of_except {α : Type} (r : Except String α) : exactlyOne r :=
  by
  cases r with
  | ok a => exact Or.inl ⟨rfl, rfl⟩
  | error e => exact Or.inr ⟨rfl, rfl⟩

theorem containsStr_append_left (p n : String) : containsStr (p ++ n) n :=
  ⟨p, "", (String.append_empty (p ++ n)).symm⟩

theorem deliverEvent_terminated (st : LoopState) (e : WindowEvent)
    (h : st.life = LifeState.Terminated) : deliverEvent st e = st := by
  simp [deliverEvent, h]

theorem runEvents_terminated (st : LoopState) (es : List WindowEvent)
    (h : st.life = LifeState.Terminated) : runEvents st es = st := by
  induction es with
  | nil => rfl
  | cons e es ih =>
      show runEvents (deliverEvent st e) es = st
      rw [deliverEvent_terminated st e h]
      exact ih

theorem deliverEvent_running_close (n : Nat) :
    deliverEvent ⟨LifeState.Running, n⟩ WindowEvent.closeRequested
      = ⟨LifeState.Terminated, n + 1⟩ := rfl

theorem deliverEvent_running_other (n : Nat) :
    deliverEvent ⟨LifeState.Running, n⟩ WindowEvent.other
      = ⟨LifeState.Running, n⟩ := rfl

theorem runEvents_close_mem (es : List WindowEvent) (n : Nat)
    (h : WindowEvent.closeRequested ∈ es) :
    runEvents ⟨LifeState.Running, n⟩ es = ⟨LifeState.Terminated, n + 1⟩ := by
  induction es with
  | nil => cases h
  | cons e es ih =>
      cases e with
      | closeRequested =>
          show runEvents
              (deliverEvent ⟨LifeState.Running, n⟩ WindowEvent.closeRequested)
              es = _
          rw [deliverEvent_running_close n]
          exact runEvents_terminated _ es rfl
      | other =>
          have hmem : WindowEvent.closeRequested ∈ es := by
            rcases List.mem_cons.mp h with h1 | h2
            · exact absurd h1 (by decide)
            · exact h2
          show runEvents
              (deliverEvent ⟨LifeState.Running, n⟩ WindowEvent.other) es = _
          rw [deliverEvent_running_other n]
          exact ih hmem

/-- C1: each of the six registered commands is a total function of its
arguments and environment oracles — no unhandled fault can cross the command
boundary — and its result is exactly one of success or error, never both and
never neither. -/
theorem commands_total_exactly_one (s : ProcState) (net : SendOutcome)
    (shellOpen : String → Except String Unit) (url title body : String) :
    exactlyOne (app_ready s).1 ∧
    exactlyOne (test_backend_connection net).2 ∧
    exactlyOne (get_app_info s).1 ∧
    exactlyOne (open_external_url shellOpen url) ∧
    exactlyOne (show_notification title body s).1 ∧
    exactlyOne (get_system_info s).1 :=
  ⟨exactlyOne_of_except _, exactlyOne_of_except _, exactlyOne_of_except _,
   exactlyOne_of_except _, exactlyOne_of_except _, exactlyOne_of_except _⟩

/-- C2: when the probe receives a success (2xx) status and the body reads
successfully, the result is a success whose string contains the raw body. -/
theorem backend_success_contains_body (status : Nat) (text : String)
    (h : statusIsSuccess status = true) :
    ∃ out,
      (test_backend_connection
          (SendOutcome.response status (BodyRead.ok text))).2
        = Except.ok out ∧ containsStr out text := by
  refine ⟨"✅ Backend connected: " ++ text, ?_, containsStr_append_left _ _⟩
  simp [test_backend_connection, h]

theorem backend_success_contains_body_witness :
    ∃ out,
      (test_backend_connection
          (SendOutcome.response 200 (BodyRead.ok "OK"))).2
        = Except.ok out ∧ containsStr out "OK" :=
  backend_success_contains_body 200 "OK" (by decide)

/-- C3: a transport-level failure of the outbound request yields an error whose
string describes the transport failure, and never a success. -/
theorem backend_transport_error (e : String) :
    (test_backend_connection (SendOutcome.transportErr e)).2
      = Except.error ("❌ Connection failed: " ++ e) ∧
    containsStr ("❌ Connection failed: " ++ e) e ∧
    isSuccess (test_backend_connection (SendOutcome.transportErr e)).2
      = false :=
  ⟨rfl, containsStr_append_left _ _, rfl⟩

/-- C4: a response with a non-success HTTP status yields an error whose string
mentions that status, and never a success, for any body. -/
theorem backend_bad_status_error (status : Nat) (body : BodyRead)
    (h : statusIsSuccess status = false) :
    ∃ msg,
      (test_backend_connection (SendOutcome.response status body)).2
        = Except.error msg ∧
      containsStr msg (toString status) ∧
      isSuccess (test_backend_connection (SendOutcome.response status body)).2
        = false := by
  refine ⟨"❌ Backend returned status: " ++ statusDisplay status, ?_, ?_, ?_⟩
  · simp [test_backend_connection, h]
  · exact ⟨"❌ Backend returned status: ",
      " " ++ (canonicalReason status).getD "<unknown status code>",
      by simp [statusDisplay, String.append_assoc]⟩
  · simp [test_backend_connection, h, isSuccess]

theorem backend_bad_status_error_witness :
    ∃ msg,
      (test_backend_connection
          (SendOutcome.response 503 (BodyRead.ok ""))).2
        = Except.error msg ∧
      containsStr msg (toString 503) ∧
      isSuccess (test_backend_connection
          (SendOutcome.response 503 (BodyRead.ok ""))).2 = false :=
  backend_bad_status_error 503 (BodyRead.ok "") (by decide)

/-- C5: a response with a success status whose body read fails yields an error
carrying the body-read failure description, and never a success. -/
theorem backend_body_read_error (status : Nat) (e : String)
    (h : statusIsSuccess status = true) :
    (test_backend_connection (SendOutcome.response status (BodyRead.err e))).2
      = Except.error e ∧
    isSuccess
      (test_backend_connection
        (SendOutcome.response status (BodyRead.err e))).2 = false := by
  constructor
  · simp [test_backend_connection, h]
  · simp [test_backend_connection, h, isSuccess]

theorem backend_body_read_error_witness :
    (test_backend_connection
        (SendOutcome.response 200 (BodyRead.err "error decoding body"))).2
      = Except.error "error decoding body" ∧
    isSuccess
      (test_backend_connection
        (SendOutcome.response 200 (BodyRead.err "error decoding body"))).2
      = false :=
  backend_body_read_error 200 "error decoding body" (by decide)

/-- C6: from the Running state, any event sequence containing a close request
ends Terminated with exactly one termination attempt — repeated close signals
after the first cause no duplicate attempts — and the handler suppresses the
default close action before forcing window closure. -/
theorem close_requested_terminates_once (es : List WindowEvent)
    (h : WindowEvent.closeRequested ∈ es) :
    runEvents ⟨LifeState.Running, 0⟩ es = ⟨LifeState.Terminated, 1⟩ ∧
    on_window_event WindowEvent.closeRequested
      = [HandlerAction.preventClose, HandlerAction.forceClose] :=
  ⟨runEvents_close_mem es 0 h, rfl⟩

theorem close_requested_terminates_once_witness :
    runEvents ⟨LifeState.Running, 0⟩
        [WindowEvent.closeRequested, WindowEvent.closeRequested,
         WindowEvent.other, WindowEvent.closeRequested]
      = ⟨LifeState.Terminated, 1⟩ ∧
    on_window_event WindowEvent.closeRequested
      = [HandlerAction.preventClose, HandlerAction.forceClose] :=
  close_requested_terminates_once _ (by decide)

/-- C7: get_app_info and get_system_info are pure and deterministic within a
single process: they leave the process state unchanged, two consecutive
invocations return identical records, and every invocation succeeds. -/
theorem info_commands_pure (s : ProcState) :
    (get_app_info s).2 = s ∧
    (get_app_info ((get_app_info s).2)).1 = (get_app_info s).1 ∧
    isSuccess (get_app_info s).1 = true ∧
    (get_system_info s).2 = s ∧
    (get_system_info ((get_system_info s).2)).1 = (get_system_info s).1 ∧
    isSuccess (get_system_info s).1 = true :=
  ⟨rfl, rfl, rfl, rfl, rfl, rfl⟩

/-- C8: show_notification returns unit success for every title and body pair,
including empty strings, and never returns an error. -/
theorem show_notification_always_ok (title body : String) (s : ProcState) :
    (show_notification title body s).1 = Except.ok () ∧
    isError (show_notification title body s).1 = false :=
  ⟨rfl, rfl⟩

/-- C9: every invocation of the probe issues exactly one HTTP GET to the fixed
endpoint http://127.0.0.1:8000/health, with no custom headers, no auth, and the
default client configuration: no custom timeout and no retry. -/
theorem backend_probe_single_get (net : SendOutcome) :
    (test_backend_connection net).1 = [healthRequest] ∧
    healthRequest.method = "GET" ∧
    healthRequest.url = "http://127.0.0.1:8000/health" ∧
    healthRequest.headers = [] ∧
    healthRequest.auth = none ∧
    healthRequest.timeoutMs = none ∧
    healthRequest.retries = 0 :=
  ⟨rfl, rfl, rfl, rfl, rfl, rfl, rfl⟩

/-- C10: the success payload is the fixed prefix plus the raw body — never the
bare body — and the two error classes carry their distinct fixed prefixes for
transport failures and non-success statuses. -/
theorem backend_result_prefixes (text e : String) (s1 s2 : Nat)
    (h1 : statusIsSuccess s1 = true) (h2 : statusIsSuccess s2 = false) :
    (test_backend_connection (SendOutcome.response s1 (BodyRead.ok text))).2
        = Except.ok ("✅ Backend connected: " ++ text) ∧
    "✅ Backend connected: " ++ text ≠ text ∧
    (test_backend_connection (SendOutcome.transportErr e)).2
        = Except.error ("❌ Connection failed: " ++ e) ∧
    (test_backend_connection (SendOutcome.response s2 (BodyRead.ok text))).2
        = Except.error ("❌ Backend returned status: " ++ statusDisplay s2) :=
  by
  refine ⟨?_, ?_, rfl, ?_⟩
  · simp [test_backend_connection, h1]
  · intro hc
    have hl := congrArg String.length hc
    rw [String.length_append] at hl
    have hp : ("✅ Backend connected: ").length = 21 := rfl
    omega
  · simp [test_backend_connection, h2]

theorem backend_result_prefixes_witness :
    (test_backend_connection (SendOutcome.response 200 (BodyRead.ok "OK"))).2
        = Except.ok ("✅ Backend connected: " ++ "OK") ∧
    "✅ Backend connected: " ++ "OK" ≠ "OK" ∧
    (test_backend_connection (SendOutcome.transportErr "connection refused")).2
        = Except.error ("❌ Connection failed: " ++ "connection refused") ∧
    (test_backend_connection (SendOutcome.response 503 (BodyRead.ok "OK"))).2
        = Except.error ("❌ Backend returned status: " ++ statusDisplay 503) :=
  backend_result_prefixes "OK" "connection refused" 200 503
    (by decide) (by decide)

end FatturaAnalyzer
